import Mathlib

/-!
Verification development for the punch-list tracker (src/src/App.js).

The JavaScript source is shallowly embedded: JS objects used as
string-keyed maps (the trades map, the Firestore units collection)
become insertion-ordered association lists; each UI handler becomes a
pure function from its inputs and the relevant state to an outcome
value that records what was written to the store or which message path
was taken. Store writes (setDoc, updateDoc) and the external
suggestion call are modelled by explicit parameters that say whether
the write succeeds and what response arrived.
-/

namespace Punchlist

/-- A checklist task as stored in a trade list: free-text description
plus a completion flag (App.js task objects, e.g. line 122). -/
structure Task where
  task : String
  completed : Bool
deriving Repr, DecidableEq

/-- The trades field of a unit document: a JS object mapping trade
name to an ordered task list, embedded as an insertion-ordered
association list. -/
abbrev Trades := List (String × List Task)

/-- Reading a property of a JS object used as a map: first (unique)
matching key, none when the key is absent. -/
def objGet {α : Type} : List (String × α) → String → Option α
  | [], _ => none
  | (k, v) :: rest, n => if k = n then some v else objGet rest n

/-- Writing a property of a JS object used as a map: replaces the value
at an existing key in place, appends the key at the end otherwise
(JS object insertion-order semantics). -/
def objSet {α : Type} : List (String × α) → String → α → List (String × α)
  | [], n, x => [(n, x)]
  | (k, v) :: rest, n, x => if k = n then (k, x) :: rest else (k, v) :: objSet rest n x

theorem objGet_objSet_self {α : Type} (l : List (String × α)) (n : String) (x : α) :
    objGet (objSet l n x) n = some x := by
  induction l with
  | nil => simp [objGet, objSet]
  | cons p rest ih =>
    by_cases h : p.1 = n
    · simp [objSet, objGet, h]
    · simp [objSet, objGet, h, ih]

theorem objGet_objSet_ne {α : Type} (l : List (String × α)) (n m : String) (x : α)
    (h : m ≠ n) : objGet (objSet l n x) m = objGet l m := by
  have hnm : ¬ n = m := fun hh => h hh.symm
  induction l with
  | nil => simp [objGet, objSet, hnm]
  | cons p rest ih =>
    cases p with
    | mk k v =>
      by_cases hk : k = n
      · subst hk
        simp [objSet, objGet, hnm]
      · simp [objSet, objGet, hk, ih]

theorem objSet_objSet {α : Type} (l : List (String × α)) (n : String) (x y : α) :
    objSet (objSet l n x) n y = objSet l n y := by
  induction l with
  | nil => simp [objSet]
  | cons p rest ih =>
    by_cases h : p.1 = n
    · simp [objSet, h]
    · simp [objSet, h, ih]

theorem objSet_objGet_eq {α : Type} (l : List (String × α)) (n : String) (x : α)
    (h : objGet l n = some x) : objSet l n x = l := by
  induction l with
  | nil => simp [objGet] at h
  | cons p rest ih =>
    by_cases hk : p.1 = n
    · simp [objGet, hk] at h
      cases p with
      | mk k v => simp at hk; subst hk; simp [objSet]; simpa using h.symm
    · simp [objGet, hk] at h
      simp [objSet, hk, ih h]

/-- The fixed default trades map given to every new unit
(App.js lines 120-141): 5 trades with 2 canned tasks each, all
incomplete. -/
def defaultTrades : Trades :=
  [("Electrical", [⟨"Rough-in wiring", false⟩, ⟨"Fixture installation", false⟩]),
   ("Plumbing", [⟨"Rough-in pipes", false⟩, ⟨"Fixture hookup", false⟩]),
   ("Drywall", [⟨"Hang sheets", false⟩, ⟨"Tape and mud", false⟩]),
   ("Painting", [⟨"Prime walls", false⟩, ⟨"Apply finish coats", false⟩]),
   ("Flooring", [⟨"Install subfloor", false⟩, ⟨"Lay finish flooring", false⟩])]

/-- A unit document as stored in Firestore (App.js lines 150-154). -/
structure UnitDoc where
  address : String
  status : String
  trades : Trades
deriving Repr, DecidableEq

/-- The units collection of the document store: unit name (document
key) to unit document. -/
abbrev Store := List (String × UnitDoc)

/-- Reading one unit document by name, as the single-document
subscription does (App.js lines 344-359). -/
def getUnit (store : Store) (name : String) : Option UnitDoc :=
  objGet store name

/-- Firestore setDoc on the units collection: whole-document write,
overwriting any existing document at the same key. -/
def setDoc (store : Store) (name : String) (d : UnitDoc) : Store :=
  objSet store name d

/-- Embedding of addUnitToFirestore (App.js lines 143-162): when the
database is not initialized it reports and returns false; otherwise it
issues a setDoc of a fresh default unit document at the unit-name key,
returning true on write success and false (error message) on write
failure. There is no existence check before the setDoc. -/
def addUnitToFirestore (dbReady writeOk : Bool) (store : Store)
    (unitName unitAddress : String) : Bool × Store :=
  if !dbReady then (false, store)
  else if writeOk then
    (true, setDoc store unitName ⟨unitAddress, "Not Started", defaultTrades⟩)
  else (false, store)

/-- Outcome of handleTaskToggle: the guard return when unit data or the
database handle is missing, a successful field write of the new unit
document, a caught write error reported via showMessage, or an uncaught
TypeError thrown before the try block. -/
inductive ToggleOutcome where
  | guardReturn
  | wrote (newDoc : UnitDoc)
  | reportedError
  | crash
deriving Repr, DecidableEq

/-- Flipping the completed flag of the task at one position, the pure
content of lines 374-376 when the position is in range. -/
def toggleAt : List Task → Nat → List Task
  | [], _ => []
  | t :: ts, 0 => Task.mk t.task (!t.completed) :: ts
  | t :: ts, Nat.succ n => t :: toggleAt ts n

/-- Embedding of handleTaskToggle (App.js lines 370-386). When the
trade key is absent, spreading updatedTrades of tradeName (undefined)
throws a TypeError; when the index is out of range, assigning to the
completed property of an undefined element throws a TypeError. Both
happen before the try block, so they surface as an unhandled rejection:
modelled as crash. The updateDoc inside the try writes only the trades
field, so address and status are carried over unchanged; a failing
updateDoc is caught and reported. -/
def handleTaskToggle (hasUnitData writeOk : Bool) (u : UnitDoc)
    (tradeName : String) (taskIndex : Nat) : ToggleOutcome :=
  if !hasUnitData then .guardReturn
  else
    match objGet u.trades tradeName with
    | none => .crash
    | some tasks =>
      if taskIndex < tasks.length then
        let updatedTrades := objSet u.trades tradeName (toggleAt tasks taskIndex)
        if writeOk then .wrote ⟨u.address, u.status, updatedTrades⟩
        else .reportedError
      else .crash

/-- Outcome of handleAddTask: guard return (no unit data, no database,
or no selected trade), prompt cancelled or empty (falsy), a successful
write of the new trades map, or a caught and reported write error. -/
inductive AddTaskOutcome where
  | guardReturn
  | promptFalsy
  | wrote (newTrades : Trades)
  | reportedError
deriving Repr, DecidableEq

/-- Embedding of handleAddTask (App.js lines 388-410). The prompt
result is null (cancel) or a string; an empty string is falsy, so both
skip the write. Otherwise the task is pushed onto the selected trade
list, which starts from the empty list when the trade key is absent,
and the whole trades map is written back. -/
def handleAddTask (ready writeOk : Bool) (trades : Trades)
    (selectedTrade : String) (promptResult : Option String) : AddTaskOutcome :=
  if !ready || selectedTrade = "" then .guardReturn
  else
    match promptResult with
    | none => .promptFalsy
    | some newTaskName =>
      if newTaskName = "" then .promptFalsy
      else
        let tasks := (objGet trades selectedTrade).getD []
        let tasks2 := tasks ++ [⟨newTaskName, false⟩]
        if writeOk then .wrote (objSet trades selectedTrade tasks2)
        else .reportedError

/-- Outcome of the post-parse part of handleSuggestTasks on a string
array: a successful write, the reported no-op when nothing new is
unique, the invalid-list error branch for an empty array, or a caught
and reported write error. -/
inductive SuggestOutcome where
  | wrote (newTrades : Trades)
  | noNewUnique
  | invalidList
  | reportedError
deriving Repr, DecidableEq

/-- Embedding of handleSuggestTasks after a successful parse to a
string array (App.js lines 454-471): the array must be non-empty;
suggestions whose text strictly equals some existing task text in the
selected trade are filtered out; the rest are appended as incomplete
tasks and the whole trades map written back; when nothing survives the
filter, no write happens and a no-op message is shown. -/
def handleSuggestTasksParsed (writeOk : Bool) (trades : Trades)
    (selectedTrade : String) (suggestedTasks : List String) : SuggestOutcome :=
  if suggestedTasks.length > 0 then
    let existingTasks := (objGet trades selectedTrade).getD []
    let newTasksToAdd :=
      (suggestedTasks.filter
        (fun s => !existingTasks.any (fun e => e.task == s))).map
        (fun s => Task.mk s false)
    if newTasksToAdd.length > 0 then
      if writeOk then
        .wrote (objSet trades selectedTrade (existingTasks ++ newTasksToAdd))
      else .reportedError
    else .noNewUnique
  else .invalidList

/-- Final message of the bulk generation batch: the success message
carrying unitsAddedCount after the loop completes, or the stop message
carrying the failed unit name (and no count). -/
inductive BatchReport where
  | batchDone (count : Nat)
  | failedAt (unitName : String)
deriving Repr, DecidableEq

/-- What a run of the bulk generation produced: the store after the
run, the unit names passed to addUnitToFirestore in order, the unit
names successfully created in order, and the final message. -/
structure BatchResult where
  store : Store
  attempted : List String
  created : List String
  report : BatchReport
deriving Repr, DecidableEq

/-- Zero-padded unit number as built on App.js line 201. -/
def unitNumberString (i : Nat) : String :=
  if i < 10 then "0" ++ toString i else toString i

/-- The four fixed building prefixes of App.js line 196. -/
def buildingPrefixes : List String :=
  ["BuildingA", "BuildingB", "BuildingC", "BuildingD"]

/-- The 80 name-address pairs the nested loops of App.js lines 199-203
produce, in loop order. -/
def batchUnits : List (String × String) :=
  buildingPrefixes.flatMap (fun b =>
    (List.range 20).map (fun k =>
      (b ++ "-Unit" ++ unitNumberString (k + 1),
       b ++ " Address, Unit " ++ unitNumberString (k + 1))))

/-- The 80 unit names of the batch, in generation order. -/
def batchNames : List String :=
  batchUnits.map Prod.fst

/-- The loop body of handleGenerateMultipleUnits over the remaining
units: each iteration calls addUnitToFirestore; on success the counter
is incremented and the loop continues, on failure the stop message
naming the failed unit is shown and the function returns; after the
last iteration the success message with the counter is shown. The
per-unit write success is given by the oracle ok. -/
def runBatch (ok : String → Bool) :
    List (String × String) → Store → Nat → BatchResult
  | [], store, count => ⟨store, [], [], .batchDone count⟩
  | (n, a) :: rest, store, count =>
    let r := addUnitToFirestore true (ok n) store n a
    if r.1 then
      let res := runBatch ok rest r.2 (count + 1)
      ⟨res.store, n :: res.attempted, n :: res.created, res.report⟩
    else ⟨r.2, [n], [], .failedAt n⟩

/-- Embedding of handleGenerateMultipleUnits (App.js lines 184-214)
after the confirm dialog, with the database initialized: runs the
batch over all 80 units starting from counter 0. -/
def handleGenerateMultipleUnits (ok : String → Bool) (store : Store) : BatchResult :=
  runBatch ok batchUnits store 0

/-- The final store after successfully creating every unit of a list,
each write a setDoc of the fresh default document. -/
def applyAll (units : List (String × String)) (store : Store) : Store :=
  units.foldl (fun s p => setDoc s p.1 ⟨p.2, "Not Started", defaultTrades⟩) store

/-- A JSON value as JavaScript sees the parsed suggestion response:
enough constructors for strings, numbers, booleans, null and arrays. -/
inductive JsonVal where
  | jstr (s : String)
  | jnum (n : Int)
  | jbool (b : Bool)
  | jnull
  | jarr (elems : List JsonVal)

/-- JavaScript strict equality as used by existing.task === suggested
on line 460: primitives of the same type compare by value, values of
different types are never equal, and two distinct array objects are
compared by reference, which is false for a freshly parsed array
element against any stored value. -/
def strictEq : JsonVal → JsonVal → Bool
  | .jstr a, .jstr b => a == b
  | .jnum a, .jnum b => a == b
  | .jbool a, .jbool b => a == b
  | .jnull, .jnull => true
  | _, _ => false

/-- A task object whose text field holds whatever JSON value was
appended, as JavaScript allows. -/
structure JTask where
  task : JsonVal
  completed : Bool

/-- A trades map whose task texts are arbitrary JSON values. -/
abbrev JTrades := List (String × List JTask)

/-- Lifting a string-texted trades map into the JSON-texted form. -/
def toJTrades (t : Trades) : JTrades :=
  t.map (fun p => (p.1, p.2.map (fun tk => JTask.mk (.jstr tk.task) tk.completed)))

/-- Outcome of handleSuggestTasks at the response-handling level:
a successful write, the reported no-op, the invalid-list error message,
the unexpected-shape error message, or the outer catch (parse throw or
write failure). -/
inductive SuggestJsonOutcome where
  | wrote (newTrades : JTrades)
  | noNewUnique
  | invalidList
  | badShape
  | errorCaught

/-- Embedding of the response handling of handleSuggestTasks (App.js
lines 446-479) at the JSON level. shapeOk is the candidates-content-
parts guard of lines 448-450; parsed is the result of JSON.parse on the
returned text, whose throw lands in the outer catch; the Array.isArray
and length checks of line 454 accept any non-empty array, with no check
that its elements are strings; the filter compares by strict equality
and the survivors are appended and written back. -/
def handleSuggestTasksResponse (shapeOk writeOk : Bool)
    (parsed : Except Unit JsonVal) (trades : JTrades)
    (selectedTrade : String) : SuggestJsonOutcome :=
  if shapeOk then
    match parsed with
    | .error _ => .errorCaught
    | .ok v =>
      match v with
      | .jarr suggestedTasks =>
        if suggestedTasks.length > 0 then
          let existingTasks := (objGet trades selectedTrade).getD []
          let newTasksToAdd :=
            (suggestedTasks.filter
              (fun s => !existingTasks.any (fun e => strictEq e.task s))).map
              (fun s => JTask.mk s false)
          if newTasksToAdd.length > 0 then
            if writeOk then
              .wrote (objSet trades selectedTrade (existingTasks ++ newTasksToAdd))
            else .errorCaught
          else .noNewUnique
        else .invalidList
      | _ => .invalidList
  else .badShape

/-- Modelled from the spec: a response that parses to "a non-empty
array of strings", the shape §4.2 requires before suggestions may be
used. Compared against the guard the code actually runs. -/
def isNonEmptyStringArray : JsonVal → Bool
  | .jarr xs =>
    xs.length > 0 && xs.all (fun x => match x with | .jstr _ => true | _ => false)
  | _ => false

/-- Whether the final batch message carries the added-units count. -/
def reportsCount : BatchReport → Bool
  | .batchDone _ => true
  | .failedAt _ => false

theorem toggleAt_length (ts : List Task) (i : Nat) :
    (toggleAt ts i).length = ts.length := by
  induction ts generalizing i with
  | nil => rfl
  | cons t rest ih =>
    cases i with
    | zero => simp [toggleAt]
    | succ n => simp [toggleAt, ih]

theorem toggleAt_toggleAt (ts : List Task) (i : Nat) :
    toggleAt (toggleAt ts i) i = ts := by
  induction ts generalizing i with
  | nil => rfl
  | cons t rest ih =>
    cases i with
    | zero => simp [toggleAt]
    | succ n => simp [toggleAt, ih]

theorem toggleAt_getElem_ne (ts : List Task) (i j : Nat) (h : j ≠ i) :
    (toggleAt ts i)[j]? = ts[j]? := by
  induction ts generalizing i j with
  | nil => rfl
  | cons t rest ih =>
    cases i with
    | zero =>
      cases j with
      | zero => exact absurd rfl h
      | succ m => simp [toggleAt]
    | succ n =>
      cases j with
      | zero => simp [toggleAt]
      | succ m =>
        simp only [toggleAt, List.getElem?_cons_succ]
        exact ih n m (fun hh => h (by rw [hh]))

theorem toggleAt_getElem_self (ts : List Task) (i : Nat) :
    ((toggleAt ts i)[i]?).map Task.task = (ts[i]?).map Task.task := by
  induction ts generalizing i with
  | nil => rfl
  | cons t rest ih =>
    cases i with
    | zero => simp [toggleAt]
    | succ n =>
      simp only [toggleAt, List.getElem?_cons_succ]
      exact ih n

theorem runBatch_cons_ok (ok : String → Bool) (n a : String)
    (rest : List (String × String)) (store : Store) (count : Nat)
    (hn : ok n = true) :
    runBatch ok ((n, a) :: rest) store count =
      ⟨(runBatch ok rest (setDoc store n ⟨a, "Not Started", defaultTrades⟩) (count + 1)).store,
       n :: (runBatch ok rest (setDoc store n ⟨a, "Not Started", defaultTrades⟩) (count + 1)).attempted,
       n :: (runBatch ok rest (setDoc store n ⟨a, "Not Started", defaultTrades⟩) (count + 1)).created,
       (runBatch ok rest (setDoc store n ⟨a, "Not Started", defaultTrades⟩) (count + 1)).report⟩ := by
  simp [runBatch, addUnitToFirestore, hn]

theorem runBatch_cons_fail (ok : String → Bool) (n a : String)
    (rest : List (String × String)) (store : Store) (count : Nat)
    (hn : ok n = false) :
    runBatch ok ((n, a) :: rest) store count = ⟨store, [n], [], .failedAt n⟩ := by
  simp [runBatch, addUnitToFirestore, hn]

theorem runBatch_success (ok : String → Bool) (units : List (String × String))
    (store : Store) (count : Nat) (h : ∀ p ∈ units, ok p.1 = true) :
    runBatch ok units store count =
      ⟨applyAll units store, units.map Prod.fst, units.map Prod.fst,
       .batchDone (count + units.length)⟩ := by
  induction units generalizing store count with
  | nil => simp [runBatch, applyAll]
  | cons p rest ih =>
    cases p with
    | mk n a =>
      have hn : ok n = true := h (n, a) (List.mem_cons_self _ _)
      have hr : ∀ q ∈ rest, ok q.1 = true := fun q hq => h q (List.mem_cons_of_mem _ hq)
      rw [runBatch_cons_ok ok n a rest store count hn, ih _ _ hr]
      have harith : count + 1 + rest.length = count + ((n, a) :: rest).length := by
        simp only [List.length_cons]
        omega
      simp only [applyAll, List.foldl_cons, List.map_cons]
      rw [harith]

theorem runBatch_failure (ok : String → Bool) (u1 : List (String × String))
    (n a : String) (u2 : List (String × String)) (store : Store) (count : Nat)
    (h1 : ∀ p ∈ u1, ok p.1 = true) (h2 : ok n = false) :
    runBatch ok (u1 ++ (n, a) :: u2) store count =
      ⟨applyAll u1 store, u1.map Prod.fst ++ [n], u1.map Prod.fst, .failedAt n⟩ := by
  induction u1 generalizing store count with
  | nil =>
    rw [List.nil_append, runBatch_cons_fail ok n a u2 store count h2]
    simp [applyAll]
  | cons p rest ih =>
    cases p with
    | mk m b =>
      have hm : ok m = true := h1 (m, b) (List.mem_cons_self _ _)
      have hr : ∀ q ∈ rest, ok q.1 = true := fun q hq => h1 q (List.mem_cons_of_mem _ hq)
      rw [List.cons_append, runBatch_cons_ok ok m b _ store count hm, ih _ _ hr]
      simp [applyAll, List.map_cons]

/-- C1 counterexample: unit A-1 already exists with address 123 Main,
status In Progress and an emptied trades map; the add-unit action for
the same name reports success (true, not failure) and replaces the
stored document with the fresh default one, so the existing document
does not survive. -/
theorem claim1_counterexample :
    (addUnitToFirestore true true [("A-1", ⟨"123 Main", "In Progress", []⟩)]
        "A-1" "456 Oak").1 = true ∧
    getUnit (addUnitToFirestore true true [("A-1", ⟨"123 Main", "In Progress", []⟩)]
        "A-1" "456 Oak").2 "A-1" =
      some ⟨"456 Oak", "Not Started", defaultTrades⟩ ∧
    getUnit (addUnitToFirestore true true [("A-1", ⟨"123 Main", "In Progress", []⟩)]
        "A-1" "456 Oak").2 "A-1" ≠
      some ⟨"123 Main", "In Progress", []⟩ := by
  decide

/-- C1 amended: addUnitToFirestore performs no existence check. For
every unit name that already has a document, the add-unit action with
that name reports success and overwrites the existing document with a
fresh default unit (store-level last-write-wins); failure is reported
only when the database is uninitialized or the store write fails. -/
theorem claim1_amended (store : Store) (name addr : String) (d : UnitDoc)
    (hexists : getUnit store name = some d) :
    (addUnitToFirestore true true store name addr).1 = true ∧
    getUnit (addUnitToFirestore true true store name addr).2 name =
      some ⟨addr, "Not Started", defaultTrades⟩ ∧
    (addUnitToFirestore true false store name addr).1 = false ∧
    (addUnitToFirestore false true store name addr).1 = false := by
  refine ⟨rfl, ?_, rfl, rfl⟩
  simp [addUnitToFirestore, getUnit, setDoc, objGet_objSet_self]

/-- C1 witness: the amended statement at the concrete store holding
A-1. -/
theorem claim1_amended_witness :
    (addUnitToFirestore true true [("A-1", ⟨"123 Main", "In Progress", []⟩)]
        "A-1" "456 Oak").1 = true ∧
    getUnit (addUnitToFirestore true true [("A-1", ⟨"123 Main", "In Progress", []⟩)]
        "A-1" "456 Oak").2 "A-1" =
      some ⟨"456 Oak", "Not Started", defaultTrades⟩ ∧
    (addUnitToFirestore true false [("A-1", ⟨"123 Main", "In Progress", []⟩)]
        "A-1" "456 Oak").1 = false ∧
    (addUnitToFirestore false true [("A-1", ⟨"123 Main", "In Progress", []⟩)]
        "A-1" "456 Oak").1 = false :=
  claim1_amended [("A-1", ⟨"123 Main", "In Progress", []⟩)] "A-1" "456 Oak"
    ⟨"123 Main", "In Progress", []⟩ (by decide)

/-- C2: when the trade key is stale (absent from the trades map) or
the task index is stale (out of range of the trade task list) at write
time, handleTaskToggle does not take the reported-error path: the
spread of an undefined trade list, respectively the assignment to a
property of an undefined element, throws a TypeError before the try
block, so the handler crashes with an unhandled rejection instead of
reporting. -/
theorem claim2_code_bug :
    handleTaskToggle true true ⟨"123 Main", "Not Started", defaultTrades⟩
      "Roofing" 0 = .crash ∧
    handleTaskToggle true true ⟨"123 Main", "Not Started", defaultTrades⟩
      "Electrical" 2 = .crash ∧
    handleTaskToggle true true ⟨"123 Main", "Not Started", defaultTrades⟩
      "Roofing" 0 ≠ .reportedError := by
  decide

/-- C4: for every non-empty unit name and address, a successful
createUnit followed by getUnit yields a unit with status Not Started
and the fixed default trades map: exactly the five trades Electrical,
Plumbing, Drywall, Painting, Flooring in order, two canned tasks each,
every task incomplete, and Electrical holding Rough-in wiring and
Fixture installation, both incomplete. -/
theorem claim4_theorem (store : Store) (name addr : String)
    (hname : name ≠ "") (haddr : addr ≠ "") :
    getUnit (addUnitToFirestore true true store name addr).2 name =
      some ⟨addr, "Not Started", defaultTrades⟩ ∧
    defaultTrades.map Prod.fst =
      ["Electrical", "Plumbing", "Drywall", "Painting", "Flooring"] ∧
    (∀ p ∈ defaultTrades, p.2.length = 2 ∧ ∀ t ∈ p.2, t.completed = false) ∧
    objGet defaultTrades "Electrical" =
      some [⟨"Rough-in wiring", false⟩, ⟨"Fixture installation", false⟩] := by
  refine ⟨?_, by decide, by decide, by decide⟩
  simp [addUnitToFirestore, getUnit, setDoc, objGet_objSet_self]

/-- C4 witness: creating unit A-1 at address 123 Main in the empty
store and reading it back. -/
theorem claim4_witness :
    getUnit (addUnitToFirestore true true [] "A-1" "123 Main").2 "A-1" =
      some ⟨"123 Main", "Not Started", defaultTrades⟩ ∧
    defaultTrades.map Prod.fst =
      ["Electrical", "Plumbing", "Drywall", "Painting", "Flooring"] ∧
    (∀ p ∈ defaultTrades, p.2.length = 2 ∧ ∀ t ∈ p.2, t.completed = false) ∧
    objGet defaultTrades "Electrical" =
      some [⟨"Rough-in wiring", false⟩, ⟨"Fixture installation", false⟩] :=
  claim4_theorem [] "A-1" "123 Main" (by decide) (by decide)

/-- C5: for every unit state whose trades map holds the trade at a
valid index, toggling writes the trades map with only that flag
flipped, and toggling again from the written state writes back exactly
the original unit document: the completed value equals its original
value and all other state is as before. -/
theorem claim5_theorem (u : UnitDoc) (tradeName : String) (i : Nat)
    (tasks : List Task)
    (h1 : objGet u.trades tradeName = some tasks) (h2 : i < tasks.length) :
    handleTaskToggle true true u tradeName i =
      .wrote ⟨u.address, u.status, objSet u.trades tradeName (toggleAt tasks i)⟩ ∧
    handleTaskToggle true true
        ⟨u.address, u.status, objSet u.trades tradeName (toggleAt tasks i)⟩
        tradeName i =
      .wrote u := by
  constructor
  · simp [handleTaskToggle, h1, h2]
  · have hget : objGet (objSet u.trades tradeName (toggleAt tasks i)) tradeName =
        some (toggleAt tasks i) := objGet_objSet_self _ _ _
    have hlen : i < (toggleAt tasks i).length := by
      rw [toggleAt_length]
      exact h2
    simp [handleTaskToggle, hget, hlen, toggleAt_toggleAt, objSet_objSet,
      objSet_objGet_eq _ _ _ h1]

/-- C5 witness: double-toggling the first Electrical task of a default
unit restores the original document. -/
theorem claim5_witness :
    handleTaskToggle true true ⟨"123 Main", "Not Started", defaultTrades⟩
        "Electrical" 0 =
      .wrote ⟨"123 Main", "Not Started",
        objSet defaultTrades "Electrical"
          (toggleAt [⟨"Rough-in wiring", false⟩, ⟨"Fixture installation", false⟩] 0)⟩ ∧
    handleTaskToggle true true
        ⟨"123 Main", "Not Started",
          objSet defaultTrades "Electrical"
            (toggleAt [⟨"Rough-in wiring", false⟩, ⟨"Fixture installation", false⟩] 0)⟩
        "Electrical" 0 =
      .wrote ⟨"123 Main", "Not Started", defaultTrades⟩ :=
  claim5_theorem ⟨"123 Main", "Not Started", defaultTrades⟩ "Electrical" 0
    [⟨"Rough-in wiring", false⟩, ⟨"Fixture installation", false⟩]
    (by decide) (by decide)

/-- C3 counterexample: with a store oracle that fails exactly on the
37th unit name, the batch creates exactly 36 units, attempts the 37th
and stops, but its final message is the failed-unit message, which
carries no count: the count of units created so far is not reported
when the batch stops at a failure. -/
theorem claim3_counterexample :
    (handleGenerateMultipleUnits (fun n => n != "BuildingB-Unit17") []).created.length = 36 ∧
    (handleGenerateMultipleUnits (fun n => n != "BuildingB-Unit17") []).attempted.length = 37 ∧
    (handleGenerateMultipleUnits (fun n => n != "BuildingB-Unit17") []).report =
      .failedAt "BuildingB-Unit17" ∧
    reportsCount (handleGenerateMultipleUnits (fun n => n != "BuildingB-Unit17") []).report =
      false := by
  decide

/-- C3 amended: bulk generation calls createUnit once per unit for the
4 fixed building prefixes times 20 units each, named Prefix-UnitNN
with NN zero-padded 01..20, strictly in order; when every call
succeeds exactly 80 units are created and the success message reports
the count 80; at the first failing call it stops without attempting
any later call, having created exactly the units before it, and its
stop message names the failed unit but does not carry the count. -/
theorem claim3_amended :
    (batchNames =
      ["BuildingA", "BuildingB", "BuildingC", "BuildingD"].flatMap (fun b =>
        ["01", "02", "03", "04", "05", "06", "07", "08", "09", "10", "11",
         "12", "13", "14", "15", "16", "17", "18", "19", "20"].map
          (fun s => b ++ "-Unit" ++ s))) ∧
    (∀ ok : String → Bool, ∀ store : Store,
      (∀ p ∈ batchUnits, ok p.1 = true) →
      handleGenerateMultipleUnits ok store =
        ⟨applyAll batchUnits store, batchNames, batchNames, .batchDone 80⟩) ∧
    (∀ ok : String → Bool, ∀ store : Store,
      ∀ u1 : List (String × String), ∀ n a : String, ∀ u2 : List (String × String),
      batchUnits = u1 ++ (n, a) :: u2 →
      (∀ p ∈ u1, ok p.1 = true) → ok n = false →
      handleGenerateMultipleUnits ok store =
        ⟨applyAll u1 store, u1.map Prod.fst ++ [n], u1.map Prod.fst, .failedAt n⟩) := by
  refine ⟨by decide, ?_, ?_⟩
  · intro ok store h
    show runBatch ok batchUnits store 0 = _
    rw [runBatch_success ok batchUnits store 0 h]
    rfl
  · intro ok store u1 n a u2 hdec h1 h2
    show runBatch ok batchUnits store 0 = _
    rw [hdec, runBatch_failure ok u1 n a u2 store 0 h1 h2]

/-- C3 witness: the amended statement applied with the always-succeed
oracle, and with an oracle failing on the very first unit of the
batch. -/
theorem claim3_amended_witness :
    (handleGenerateMultipleUnits (fun _ => true) [] =
      ⟨applyAll batchUnits [], batchNames, batchNames, .batchDone 80⟩) ∧
    (handleGenerateMultipleUnits (fun m => m != "BuildingA-Unit01") [] =
      ⟨applyAll [] [], List.map Prod.fst ([] : List (String × String)) ++ ["BuildingA-Unit01"],
       List.map Prod.fst ([] : List (String × String)), .failedAt "BuildingA-Unit01"⟩) :=
  ⟨claim3_amended.2.1 (fun _ => true) [] (fun p _ => rfl),
   claim3_amended.2.2 (fun m => m != "BuildingA-Unit01") [] []
     "BuildingA-Unit01" "BuildingA Address, Unit 01" batchUnits.tail
     (by decide) (fun p hp => absurd hp (List.not_mem_nil p)) (by decide)⟩

/-- C6: the suggestion filter keeps exactly the suggestions whose text
equals no existing task text of the selected trade, by exact string
equality; when every suggestion matches an existing task the handler
performs no write and reports the no-op message; otherwise it writes
the trades map with exactly the non-matching suggestions appended as
incomplete tasks. -/
theorem claim6_theorem (trades : Trades) (selectedTrade : String)
    (suggestions : List String) (hne : suggestions ≠ []) :
    ((∀ s ∈ suggestions,
        ((objGet trades selectedTrade).getD []).any (fun e => e.task == s) = true) →
      handleSuggestTasksParsed true trades selectedTrade suggestions = .noNewUnique) ∧
    ((∃ s ∈ suggestions,
        ((objGet trades selectedTrade).getD []).any (fun e => e.task == s) = false) →
      handleSuggestTasksParsed true trades selectedTrade suggestions =
        .wrote (objSet trades selectedTrade
          ((objGet trades selectedTrade).getD [] ++
           (suggestions.filter
             (fun s => !((objGet trades selectedTrade).getD []).any
               (fun e => e.task == s))).map
             (fun s => Task.mk s false)))) := by
  have hlen : suggestions.length > 0 := List.length_pos.mpr hne
  constructor
  · intro hall
    have hfilter : suggestions.filter
        (fun s => !((objGet trades selectedTrade).getD []).any
          (fun e => e.task == s)) = [] := by
      apply List.filter_eq_nil_iff.mpr
      intro s hs
      simp [hall s hs]
    simp [handleSuggestTasksParsed, hlen, hfilter]
  · rintro ⟨s, hs, hfalse⟩
    have hmem : s ∈ suggestions.filter
        (fun s2 => !((objGet trades selectedTrade).getD []).any
          (fun e => e.task == s2)) :=
      List.mem_filter.mpr ⟨hs, by simp [hfalse]⟩
    have hfpos : 0 < (suggestions.filter
        (fun s2 => !((objGet trades selectedTrade).getD []).any
          (fun e => e.task == s2))).length :=
      List.length_pos.mpr (List.ne_nil_of_mem hmem)
    simp [handleSuggestTasksParsed, hlen, hfpos]

/-- C6 witness: on the default Electrical trade, a suggestion batch
whose members all match existing tasks is a reported no-op, and the
spec scenario batch of Rough-in wiring plus Install conduit appends
only Install conduit. -/
theorem claim6_witness :
    (handleSuggestTasksParsed true defaultTrades "Electrical"
        ["Rough-in wiring", "Fixture installation"] = .noNewUnique) ∧
    (handleSuggestTasksParsed true defaultTrades "Electrical"
        ["Rough-in wiring", "Install conduit"] =
      .wrote (objSet defaultTrades "Electrical"
        ((objGet defaultTrades "Electrical").getD [] ++
         (["Rough-in wiring", "Install conduit"].filter
           (fun s => !((objGet defaultTrades "Electrical").getD []).any
             (fun e => e.task == s))).map
           (fun s => Task.mk s false)))) :=
  ⟨(claim6_theorem defaultTrades "Electrical"
      ["Rough-in wiring", "Fixture installation"] (by decide)).1 (by decide),
   (claim6_theorem defaultTrades "Electrical"
      ["Rough-in wiring", "Install conduit"] (by decide)).2 (by decide)⟩

/-- C7 counterexample: the parsed response of two JSON numbers is not
a non-empty array of strings, yet the handler does not treat it as a
failure: it appends both numeric elements as tasks of the selected
trade and writes the trades map back. -/
theorem claim7_counterexample :
    isNonEmptyStringArray (.jarr [.jnum 1, .jnum 2]) = false ∧
    handleSuggestTasksResponse true true (.ok (.jarr [.jnum 1, .jnum 2]))
        (toJTrades defaultTrades) "Electrical" =
      .wrote (objSet (toJTrades defaultTrades) "Electrical"
        ((objGet (toJTrades defaultTrades) "Electrical").getD [] ++
         [⟨.jnum 1, false⟩, ⟨.jnum 2, false⟩])) := by
  exact ⟨rfl, rfl⟩

/-- C7 amended: the handler reports a recoverable failure and appends
no tasks for a malformed or missing response shape, for a response
text that fails to parse, for a parsed value that is not an array, and
for an empty array; however it does not validate element types, so a
response parsing to a non-empty array of non-string values is accepted
and its elements are appended. -/
theorem claim7_amended (writeOk : Bool) (trades : JTrades) (st : String)
    (parsed : Except Unit JsonVal) (v : JsonVal) :
    (handleSuggestTasksResponse false writeOk parsed trades st = .badShape) ∧
    (handleSuggestTasksResponse true writeOk (.error ()) trades st = .errorCaught) ∧
    ((∀ xs, v ≠ .jarr xs) →
      handleSuggestTasksResponse true writeOk (.ok v) trades st = .invalidList) ∧
    (handleSuggestTasksResponse true writeOk (.ok (.jarr [])) trades st = .invalidList) := by
  refine ⟨rfl, rfl, ?_, rfl⟩
  intro hv
  cases v with
  | jstr s => rfl
  | jnum n => rfl
  | jbool b => rfl
  | jnull => rfl
  | jarr xs => exact absurd rfl (hv xs)

/-- C7 witness: a response that parses to a bare string is rejected
through the invalid-list path. -/
theorem claim7_amended_witness :
    handleSuggestTasksResponse true true (.ok (.jstr "hello"))
      (toJTrades defaultTrades) "Electrical" = .invalidList :=
  (claim7_amended true (toJTrades defaultTrades) "Electrical"
      (.ok .jnull) (.jstr "hello")).2.2.1
    (fun xs h => JsonVal.noConfusion h)

/-- C8: with a non-empty task text and a selected trade,
handleAddTask writes back the full trades map in which exactly one
entry holding the text and completed false is appended at the end of
the selected trade list, which starts from the empty list when the
trade key is absent; the trade length grows by exactly one, every
pre-existing task keeps its position, and the trade key now holds the
appended list. -/
theorem claim8_theorem (trades : Trades) (selectedTrade text : String)
    (hst : selectedTrade ≠ "") (htext : text ≠ "") :
    handleAddTask true true trades selectedTrade (some text) =
      .wrote (objSet trades selectedTrade
        ((objGet trades selectedTrade).getD [] ++ [Task.mk text false])) ∧
    ((objGet trades selectedTrade).getD [] ++ [Task.mk text false]).length =
      ((objGet trades selectedTrade).getD []).length + 1 ∧
    (∀ j, j < ((objGet trades selectedTrade).getD []).length →
      ((objGet trades selectedTrade).getD [] ++ [Task.mk text false])[j]? =
        ((objGet trades selectedTrade).getD [])[j]?) ∧
    objGet (objSet trades selectedTrade
        ((objGet trades selectedTrade).getD [] ++ [Task.mk text false])) selectedTrade =
      some ((objGet trades selectedTrade).getD [] ++ [Task.mk text false]) := by
  refine ⟨?_, by simp, ?_, objGet_objSet_self _ _ _⟩
  · simp [handleAddTask, hst, htext]
  · intro j hj
    exact List.getElem?_append_left hj

/-- C8 witness: the spec scenario adding Install panel to the default
Electrical trade. -/
theorem claim8_witness :
    handleAddTask true true defaultTrades "Electrical" (some "Install panel") =
      .wrote (objSet defaultTrades "Electrical"
        ((objGet defaultTrades "Electrical").getD [] ++ [Task.mk "Install panel" false])) ∧
    ((objGet defaultTrades "Electrical").getD [] ++ [Task.mk "Install panel" false]).length =
      ((objGet defaultTrades "Electrical").getD []).length + 1 ∧
    (∀ j, j < ((objGet defaultTrades "Electrical").getD []).length →
      ((objGet defaultTrades "Electrical").getD [] ++ [Task.mk "Install panel" false])[j]? =
        ((objGet defaultTrades "Electrical").getD [])[j]?) ∧
    objGet (objSet defaultTrades "Electrical"
        ((objGet defaultTrades "Electrical").getD [] ++ [Task.mk "Install panel" false]))
        "Electrical" =
      some ((objGet defaultTrades "Electrical").getD [] ++ [Task.mk "Install panel" false]) :=
  claim8_theorem defaultTrades "Electrical" "Install panel" (by decide) (by decide)

/-- C9: each task mutation touches only its target. The toggle writes
a document with the address and status fields carried over unchanged
and only the selected trade replaced; within that trade every task at
another index is unchanged and the toggled task keeps its text. The
written trades maps of add-task and of append-suggestions likewise
leave every other trade unchanged and keep every pre-existing task of
the targeted trade at its position. -/
theorem claim9_theorem (u : UnitDoc) (tradeName m : String) (i : Nat)
    (tasks : List Task) (text : String) (suggestions : List String)
    (h1 : objGet u.trades tradeName = some tasks) (h2 : i < tasks.length)
    (hm : m ≠ tradeName) :
    (handleTaskToggle true true u tradeName i =
      .wrote ⟨u.address, u.status, objSet u.trades tradeName (toggleAt tasks i)⟩) ∧
    (objGet (objSet u.trades tradeName (toggleAt tasks i)) m = objGet u.trades m) ∧
    (∀ j, j ≠ i → (toggleAt tasks i)[j]? = tasks[j]?) ∧
    (((toggleAt tasks i)[i]?).map Task.task = (tasks[i]?).map Task.task) ∧
    (objGet (objSet u.trades tradeName
        ((objGet u.trades tradeName).getD [] ++ [Task.mk text false])) m =
      objGet u.trades m) ∧
    (∀ j, j < tasks.length → (tasks ++ [Task.mk text false])[j]? = tasks[j]?) ∧
    (objGet (objSet u.trades tradeName
        (tasks ++ (suggestions.filter
          (fun s => !tasks.any (fun e => e.task == s))).map
          (fun s => Task.mk s false))) m =
      objGet u.trades m) ∧
    (∀ j, j < tasks.length →
      (tasks ++ (suggestions.filter
        (fun s => !tasks.any (fun e => e.task == s))).map
        (fun s => Task.mk s false))[j]? = tasks[j]?) := by
  refine ⟨by simp [handleTaskToggle, h1, h2],
    objGet_objSet_ne _ _ _ _ hm,
    fun j hj => toggleAt_getElem_ne tasks i j hj,
    toggleAt_getElem_self tasks i,
    objGet_objSet_ne _ _ _ _ hm,
    fun j hj => List.getElem?_append_left hj,
    objGet_objSet_ne _ _ _ _ hm,
    fun j hj => List.getElem?_append_left hj⟩

/-- C9 witness: concrete frame facts for a default unit, toggling the
first Electrical task: the Plumbing trade is untouched and the second
Electrical task is untouched. -/
theorem claim9_witness :
    objGet (objSet defaultTrades "Electrical"
        (toggleAt [⟨"Rough-in wiring", false⟩, ⟨"Fixture installation", false⟩] 0))
        "Plumbing" =
      objGet defaultTrades "Plumbing" ∧
    (toggleAt [⟨"Rough-in wiring", false⟩, ⟨"Fixture installation", false⟩] 0)[1]? =
      [(⟨"Rough-in wiring", false⟩ : Task), ⟨"Fixture installation", false⟩][1]? := by
  have h := claim9_theorem ⟨"123 Main", "Not Started", defaultTrades⟩
    "Electrical" "Plumbing" 0
    [⟨"Rough-in wiring", false⟩, ⟨"Fixture installation", false⟩]
    "Install panel" ["Install conduit"]
    (by decide) (by decide) (by decide)
  exact ⟨h.2.1, h.2.2.1 1 (by decide)⟩

/-- C10: the suggestion filter deduplicates only against the tasks
already present in the trade, not within the suggestion batch: a batch
holding the same new string twice gets both occurrences appended,
leaving the Electrical trade with two tasks of identical text. -/
theorem claim10_theorem :
    handleSuggestTasksParsed true defaultTrades "Electrical"
        ["Install conduit", "Install conduit"] =
      .wrote (objSet defaultTrades "Electrical"
        [⟨"Rough-in wiring", false⟩, ⟨"Fixture installation", false⟩,
         ⟨"Install conduit", false⟩, ⟨"Install conduit", false⟩]) ∧
    ((objGet (objSet defaultTrades "Electrical"
        [⟨"Rough-in wiring", false⟩, ⟨"Fixture installation", false⟩,
         ⟨"Install conduit", false⟩, ⟨"Install conduit", false⟩]) "Electrical").getD
        []).countP (fun t => t.task == "Install conduit") = 2 := by
  decide

end Punchlist
